import Mathlib

/-!
Verification of the selenium_python repository: a shallow embedding of
the configuration loader (test_config_data_loader.py), the WebDriver
factory (webdriver_factory.py) and the assertion helpers (assertion.py),
followed by theorems settling the specification claims.

Python values parsed from JSON are modelled by the inductive JVal.
Python exceptions are modelled by the PyError type and fallible code
returns Except PyError. Third-party collaborators (the file system,
driver-manager installs, the selenium session constructors, pytest_check)
are modelled as oracles carried in an Env record, since their outcomes
are external to the repository. Attribute-error and type-error message
texts are rendered without quote characters around the type name.
-/

namespace SeleniumPy

/-- A JSON-like value, the result of json.load in the configuration loader. -/
inductive JVal where
  | null : JVal
  | bool : Bool → JVal
  | num : Int → JVal
  | str : String → JVal
  | list : List JVal → JVal
  | dict : List (String × JVal) → JVal

/-- Lookup of a key in a Python dict modelled as an association list. -/
def dictGet (m : List (String × JVal)) (k : String) : Option JVal :=
  match m with
  | [] => none
  | (k2, v) :: rest => if k2 == k then some v else dictGet rest k

/-- Python dict.get with a default value. -/
def dictGetD (m : List (String × JVal)) (k : String) (d : JVal) : JVal :=
  (dictGet m k).getD d

/-- Python dict item assignment: replace the entry when the key exists, else append. -/
def dictSet (m : List (String × JVal)) (k : String) (v : JVal) : List (String × JVal) :=
  match m with
  | [] => [(k, v)]
  | (k2, w) :: rest => if k2 == k then (k, v) :: rest else (k2, w) :: dictSet rest k v

/-- Python exceptions that the embedded code can raise. -/
inductive PyError where
  | pyTestFlow (msg : String)
  | attributeError (typeName attrName : String)
  | typeError (msg : String)
  | assertionError (msg : String)
  | raw (msg : String)
deriving DecidableEq

/-- Python truthiness of an optional string: None and the empty string are falsy. -/
def optTruthy : Option String → Bool
  | none => false
  | some s => !(s == "")

/-- Name of the Python type of a value, as it appears in error messages. -/
def jvalTypeName : JVal → String
  | .null => "NoneType"
  | .bool _ => "bool"
  | .num _ => "int"
  | .str _ => "str"
  | .list _ => "list"
  | .dict _ => "dict"

/-- Python v.get(k): only dict has the attribute get; a missing key yields None. -/
def pyGet (v : JVal) (k : String) : Except PyError JVal :=
  match v with
  | .dict m => .ok (dictGetD m k .null)
  | w => .error (.attributeError (jvalTypeName w) "get")

/-- Python v.get(k, d): only dict has the attribute get. -/
def pyGetD (v : JVal) (k : String) (d : JVal) : Except PyError JVal :=
  match v with
  | .dict m => .ok (dictGetD m k d)
  | w => .error (.attributeError (jvalTypeName w) "get")

/-- Python iteration over a value, as used by the for loop over args. -/
def pyIter (v : JVal) : Except PyError (List JVal) :=
  match v with
  | .list l => .ok l
  | .str s => .ok (s.toList.map (fun c => .str (String.singleton c)))
  | .dict m => .ok (m.map (fun p => .str p.1))
  | w => .error (.typeError (jvalTypeName w ++ " object is not iterable"))

/-- Outcome of opening and json-loading a file path, an external oracle. -/
inductive ReadResult where
  | content (doc : JVal)
  | notFound
  | readError (msg : String)

/-- The file system as seen by the configuration loader. -/
def FileSys : Type := String → ReadResult

/-- Embeds Config.__load_test_config_data: reads and parses the JSON file, wrapping
failures into PyTestFlowException as in the source. -/
def load_test_config_data (fs : FileSys) (path : String) : Except PyError JVal :=
  match fs path with
  | .content doc => .ok doc
  | .notFound => .error (.pyTestFlow
      ("Test config data file path not found. Please verify the correct path location."
        ++ "Path provided is: " ++ path))
  | .readError m => .error (.pyTestFlow
      ("Error in opening test config data file. Original Error: " ++ m))

/-- The Config object after construction: the resolved path and the loaded document. -/
structure Config where
  test_config_path : String
  config_data : JVal

/-- Embeds Config.__init__: defaults the path to test_environment.json when the
argument is falsy, then loads the document. -/
def Config.make (fs : FileSys) (test_config_path : Option String) : Except PyError Config :=
  let p := if optTruthy test_config_path then test_config_path.getD "" else "test_environment.json"
  match load_test_config_data fs p with
  | .error e => .error e
  | .ok d => .ok ⟨p, d⟩

/-- Embeds Config.get_config_data: returns browsers[browser] defaulting to an empty dict
when the browser argument is truthy, else devices[device] when the device argument
is truthy, else None. The some case of the result is the returned mapping and
none is the implicit Python None return. -/
def get_config_data (config_data : JVal) (browser device : Option String) :
    Except PyError (Option JVal) :=
  if optTruthy browser then
    match pyGet config_data "browsers" with
    | .error e => .error e
    | .ok sub =>
      match pyGetD sub (browser.getD "") (.dict []) with
      | .error e => .error e
      | .ok v => .ok (some v)
  else if optTruthy device then
    match pyGet config_data "devices" with
    | .error e => .error e
    | .ok sub =>
      match pyGetD sub (device.getD "") (.dict []) with
      | .error e => .error e
      | .ok v => .ok (some v)
  else .ok none

/-- Observable effects performed during factory construction, in order. -/
inductive Event where
  | configResolved
  | platformChecked
  | browserChecked
  | optionsResolved
  | serviceInited
  | remoteSessionCreated
  | localSessionCreated
deriving DecidableEq

/-- The selenium ArgOptions object: a list of launch arguments, built by
add_argument, and a capability dict, built by set_capability. -/
structure ArgOptions where
  arguments : List JVal
  caps : List (String × JVal)

/-- A browser-specific driver service handle. -/
structure Service where
  browser : String
deriving DecidableEq

/-- A created WebDriver session handle: remote grid session or local browser process. -/
inductive Driver where
  | remote (grid_url : Option String) (options : Option ArgOptions)
  | localDriver (browser : Option String) (options : Option ArgOptions) (service : Option Service)

/-- External collaborators of the factory: the host platform name, the file
system, and the outcomes of the third-party driver-manager installs and
session constructors. -/
structure Env where
  platformSystem : String
  fs : FileSys
  serviceError : String → Option String
  remoteError : Option (Bool × String)
  localError : Option String

/-- Embeds WebDriverFactory.__SUPPORTED_BROWSERS. -/
def SUPPORTED_BROWSERS : List String := ["chrome", "edge", "firefox", "safari"]

/-- Python str of an optional string, rendering None as the word None. -/
def pyStrOpt : Option String → String
  | none => "None"
  | some s => s

/-- Embeds WebDriverFactory.__check_platform_compatibility: safari on Windows is rejected. -/
def check_platform_compatibility (system : String) (browser : Option String) :
    Except PyError Unit :=
  if system == "Windows" && browser == some "safari" then
    .error (.pyTestFlow (pyStrOpt browser ++ " is not supported on Windows."))
  else .ok ()

/-- Membership of the browser argument in the supported list, as Python evaluates
browser not in SUPPORTED_BROWSERS (None is never a member). -/
def browserMem (browser : Option String) : Bool :=
  match browser with
  | some b => SUPPORTED_BROWSERS.contains b
  | none => false

/-- Embeds WebDriverFactory.__check_browser_availability. -/
def check_browser_availability (browser : Option String) : Except PyError Unit :=
  if browserMem browser then .ok ()
  else .error (.pyTestFlow ("Unsupported Browser: " ++ pyStrOpt browser ++ ". "
    ++ "Supported browsers are " ++ String.intercalate "," SUPPORTED_BROWSERS))

/-- Embeds WebDriverFactory.__init_service: dispatches on the browser name; the four
supported branches run third-party manager or service constructors inside a
try block whose failure is wrapped into PyTestFlowException; any other browser
name leaves the service unset. -/
def init_service (env : Env) (browser : Option String) : Except PyError (Option Service) :=
  match browser with
  | some b =>
    if b == "chrome" || b == "firefox" || b == "edge" || b == "safari" then
      match env.serviceError b with
      | some m => .error (.pyTestFlow ("An Error encountered while initializing service for "
          ++ b ++ " browser." ++ "Original Exception is: " ++ m))
      | none => .ok (some ⟨b⟩)
    else .ok none
  | none => .ok none

/-- The options object selected by the browser dispatch in __get_options:
a fresh per-browser options object for the four supported names, else None. -/
def optionsFor (browser : Option String) : Option ArgOptions :=
  if browser == some "chrome" || browser == some "firefox"
      || browser == some "edge" || browser == some "safari" then
    some ⟨[], []⟩
  else none

/-- The loop for arg in args: options.add_argument(arg); attribute access on a
None options object raises as soon as the loop body runs once. -/
def addArguments (options : Option ArgOptions) (args : List JVal) :
    Except PyError (Option ArgOptions) :=
  match options, args with
  | o, [] => .ok o
  | none, _ :: _ => .error (.attributeError "NoneType" "add_argument")
  | some o, l => .ok (some { o with arguments := o.arguments ++ l })

/-- The loop for key, value in config.items(): options.set_capability(key, value). -/
def setCapabilities (options : Option ArgOptions) (items : List (String × JVal)) :
    Except PyError (Option ArgOptions) :=
  match options, items with
  | o, [] => .ok o
  | none, _ :: _ => .error (.attributeError "NoneType" "set_capability")
  | some o, l => .ok (some { o with caps := l.foldl (fun cs kv => dictSet cs kv.1 kv.2) o.caps })

/-- Embeds WebDriverFactory.__get_options: reads args from the configuration with an
empty-list default, builds the per-browser options object, appends every args
entry as a launch argument, then sets every configuration item, the args key
included, as a capability. -/
def get_options (browser : Option String) (config_data : JVal) :
    Except PyError (Option ArgOptions) :=
  match config_data with
  | .dict m =>
    let args := dictGetD m "args" (.list [])
    match pyIter args with
    | .error e => .error e
    | .ok argElems =>
      match addArguments (optionsFor browser) argElems with
      | .error e => .error e
      | .ok o1 => setCapabilities o1 m
  | w => .error (.attributeError (jvalTypeName w) "get")

/-- Embeds WebDriverFactory.__create_remote_driver: resolves options, initializes the
service, then connects to the grid; selenium failures are wrapped into
PyTestFlowException with one of two messages. Returns the emitted events
together with the driver and service. -/
def create_remote_driver (env : Env) (browser grid_url : Option String) (config_data : JVal) :
    List Event × Except PyError (Option Driver × Option Service) :=
  match get_options browser config_data with
  | .error e => ([], .error e)
  | .ok opts =>
    match init_service env browser with
    | .error e => ([.optionsResolved], .error e)
    | .ok svc =>
      let t := [Event.optionsResolved] ++ (if svc.isSome then [Event.serviceInited] else [])
      match env.remoteError with
      | some (isWde, m) =>
        (t, .error (.pyTestFlow (if isWde then
            "WebDriverException Encountered while creating remote webdriver for "
              ++ pyStrOpt browser ++ " Original Error: " ++ m
          else
            "An Exception is encountered while creating remote webdriver for "
              ++ pyStrOpt browser ++ "Original Error: " ++ m)))
      | none => (t ++ [Event.remoteSessionCreated], .ok (some (.remote grid_url opts), svc))

/-- Embeds WebDriverFactory.__create_local_driver: resolves options, initializes the
service, then dispatches on the browser name to start a local session; a name
outside the four branches leaves the driver unset; constructor failures
propagate unwrapped. -/
def create_local_driver (env : Env) (browser : Option String) (config_data : JVal) :
    List Event × Except PyError (Option Driver × Option Service) :=
  match get_options browser config_data with
  | .error e => ([], .error e)
  | .ok opts =>
    match init_service env browser with
    | .error e => ([.optionsResolved], .error e)
    | .ok svc =>
      let t := [Event.optionsResolved] ++ (if svc.isSome then [Event.serviceInited] else [])
      if browser == some "chrome" || browser == some "edge"
          || browser == some "firefox" || browser == some "safari" then
        match env.localError with
        | some m => (t, .error (.raw m))
        | none => (t ++ [Event.localSessionCreated], .ok (some (.localDriver browser opts svc), svc))
      else (t, .ok (none, svc))

/-- Embeds WebDriverFactory.__set_webdriver: remote when both the remote flag and a
truthy grid url are present, else local. -/
def set_webdriver (env : Env) (browser : Option String) (remote : Bool)
    (grid_url : Option String) (config_data : JVal) :
    List Event × Except PyError (Option Driver × Option Service) :=
  if remote && optTruthy grid_url then create_remote_driver env browser grid_url config_data
  else create_local_driver env browser config_data

/-- The configuration-resolution step of WebDriverFactory.__init__: when the
config path is truthy, builds a Config and queries it with the browser name,
a None result assigning Python None to the config data; otherwise the config
data stays the initial empty dict. -/
def configStep (env : Env) (browser test_config_path : Option String) : Except PyError JVal :=
  if optTruthy test_config_path then
    match Config.make env.fs test_config_path with
    | .error e => .error e
    | .ok cfg =>
      match get_config_data cfg.config_data browser none with
      | .error e => .error e
      | .ok r => .ok (match r with | none => JVal.null | some v => v)
  else .ok (.dict [])

/-- The WebDriverFactory instance after a successful construction. -/
structure Factory where
  browser : Option String
  remote : Bool
  grid_url : Option String
  driver : Option Driver
  service : Option Service
  config_data : JVal

/-- Embeds WebDriverFactory.__init__: stores the arguments, resolves configuration when
a path was given, checks platform compatibility, checks browser availability,
then creates the webdriver. Returns the trace of emitted events together with
the constructed factory or the first raised error. -/
def factory_init (env : Env) (browser : Option String) (remote : Bool)
    (grid_url test_config_path : Option String) :
    List Event × Except PyError Factory :=
  match configStep env browser test_config_path with
  | .error e => ([], .error e)
  | .ok cfg =>
    let t1 : List Event := if optTruthy test_config_path then [.configResolved] else []
    match check_platform_compatibility env.platformSystem browser with
    | .error e => (t1, .error e)
    | .ok _ =>
      match check_browser_availability browser with
      | .error e => (t1 ++ [.platformChecked], .error e)
      | .ok _ =>
        match set_webdriver env browser remote grid_url cfg with
        | (tw, .error e) => (t1 ++ [.platformChecked, .browserChecked] ++ tw, .error e)
        | (tw, .ok (drv, svc)) =>
          (t1 ++ [.platformChecked, .browserChecked] ++ tw,
           .ok { browser := browser, remote := remote, grid_url := grid_url,
                 driver := drv, service := svc, config_data := cfg })

/-- Message of a Python attribute error, rendered without quote characters. -/
def attributeMsg (typeName attrName : String) : String :=
  typeName ++ " object has no attribute " ++ attrName

/-- Embeds WebDriverFactory.quit_webdriver: calls quit on the held driver inside a try
block; the quit outcome of a live session is an external oracle, and a missing
session raises an attribute error on None; every exception is wrapped into
PyTestFlowException. -/
def quit_webdriver (driver : Option Driver) (quitOutcome : Option String) :
    Except PyError Unit :=
  match driver with
  | none => .error (.pyTestFlow ("Error in closing WebDriver. Original Error: "
      ++ attributeMsg "NoneType" "quit"))
  | some _ =>
    match quitOutcome with
    | none => .ok ()
    | some m => .error (.pyTestFlow ("Error in closing WebDriver. Original Error: " ++ m))

/-- The pytest_check recorder: check.is_true appends the message to the recorded
failures when the condition is false and leaves them unchanged when true,
never interrupting execution. -/
def check_is_true (failures : List String) (condition : Bool) (msg : String) : List String :=
  if condition then failures else failures ++ [msg]

/-- Embeds assertion.soft_assert: delegates to check.is_true. -/
def soft_assert (failures : List String) (condition : Bool) (msg : String) : List String :=
  check_is_true failures condition msg

/-- Embeds assertion.hard_assert: the assert statement raises AssertionError with the
message when the condition is false. -/
def hard_assert (condition : Bool) (msg : String) : Except PyError Unit :=
  if condition then .ok () else .error (.assertionError msg)

/-! Helper definitions and lemmas shared by the claim theorems. -/

/-- Top-level keys of a value when it is a dict, used to tell sections apart. -/
def topKeys : JVal → List String
  | .dict m => m.map Prod.fst
  | _ => []

/-- Top-level keys of the mapping inside a successful lookup result. -/
def resultKeys : Except PyError (Option JVal) → List String
  | .ok (some v) => topKeys v
  | _ => []

/-- Environment with a file system on which every open fails with file-not-found. -/
def envNF : Env :=
  { platformSystem := "Windows"
    fs := fun _ => .notFound
    serviceError := fun _ => none
    remoteError := none
    localError := none }

/-- Environment whose file system yields an empty JSON object for every path. -/
def envMT : Env :=
  { platformSystem := "Windows"
    fs := fun _ => .content (.dict [])
    serviceError := fun _ => none
    remoteError := none
    localError := none }

/-- Environment on a non-Windows platform where every external call succeeds. -/
def envLinux : Env :=
  { platformSystem := "Linux"
    fs := fun _ => .notFound
    serviceError := fun _ => none
    remoteError := none
    localError := none }

/-- General browser-branch behaviour of get_config_data: with a truthy browser
name and a dict section under the browsers key, the lookup returns the entry of
the name, defaulting to an empty dict, whatever the device argument is. -/
theorem getConfigData_browser (m bm : List (String × JVal)) (b : String) (device : Option String)
    (hb : (b == "") = false) (hm : dictGet m "browsers" = some (.dict bm)) :
    get_config_data (.dict m) (some b) device = .ok (some (dictGetD bm b (.dict []))) := by
  simp [get_config_data, optTruthy, hb, pyGet, pyGetD, dictGetD, hm]

/-- With neither selector argument, get_config_data returns Python None. -/
theorem getConfigData_neither (doc : JVal) : get_config_data doc none none = .ok none := rfl

/-!
Claim C1. The spec asserts that __get_options appends exactly the args entries
as launch arguments and sets exactly the other keys as capabilities, so that no
capability named args is ever set. The source instead iterates over every
configuration item when setting capabilities, the args key included, while its
own docstring promises capabilities only from the other key/value pairs: the
code contradicts its documentation, a code bug. The theorem evaluates the
embedded __get_options at the failing input of the spec example.
-/

/-- Claim C1: at the spec example configuration, the resolved chrome options
object carries the two launch arguments but also a capability named args next
to pageLoadStrategy, contradicting the claim that no args capability is set. -/
theorem c1_args_capability_set :
    get_options (some "chrome")
      (.dict [("args", .list [.str "--headless", .str "--no-sandbox"]),
              ("pageLoadStrategy", .str "eager")])
    = .ok (some { arguments := [.str "--headless", .str "--no-sandbox"],
                  caps := [("args", .list [.str "--headless", .str "--no-sandbox"]),
                           ("pageLoadStrategy", .str "eager")] }) := rfl

/-!
Claim C5. The property holds for every non-empty browser name; the empty
string, which Python treats as falsy, bypasses the browsers lookup even when
the browsers section has an entry for it, so the claim as stated fails there.
-/

/-- Claim C5 counterexample: the empty browser name is present in the browsers
section, yet the lookup returns Python None instead of its entry. -/
theorem c5_counterexample :
    get_config_data (.dict [("browsers", .dict [("", .dict [("x", .num 1)])])]) (some "") none
      = .ok none
    ∧ get_config_data (.dict [("browsers", .dict [("", .dict [("x", .num 1)])])]) (some "") none
      ≠ .ok (some (.dict [("x", .num 1)])) :=
  ⟨rfl, fun h => Option.noConfusion (Except.ok.inj h)⟩

/-- Claim C5 (amended): for every non-empty browser name b and loaded document
whose browsers key holds a dict, the lookup with browser b returns exactly the
entry of b, and an empty dict when b is absent; the two cases are one equation
through the lookup default. -/
theorem c5_browser_lookup (m bm : List (String × JVal)) (b : String) (device : Option String)
    (hb : (b == "") = false) (hm : dictGet m "browsers" = some (.dict bm)) :
    get_config_data (.dict m) (some b) device = .ok (some (dictGetD bm b (.dict []))) :=
  getConfigData_browser m bm b device hb hm

/-- Claim C5 witness: a concrete document with a chrome section. -/
theorem c5_browser_lookup_witness :
    (("chrome" == "") = false)
    ∧ dictGet [("browsers", .dict [("chrome", .dict [("x", .num 1)])])] "browsers"
        = some (.dict [("chrome", .dict [("x", .num 1)])])
    ∧ get_config_data (.dict [("browsers", .dict [("chrome", .dict [("x", .num 1)])])])
        (some "chrome") none
      = .ok (some (dictGetD [("chrome", .dict [("x", .num 1)])] "chrome" (.dict []))) :=
  ⟨rfl, rfl, c5_browser_lookup _ _ "chrome" none rfl rfl⟩

/-!
Claim C6. Browser wins over device for every non-empty browser name; the empty
browser name is falsy, so when it is supplied together with a device name the
device section is returned instead, refuting the claim as stated.
-/

/-- Claim C6 counterexample: with browser the empty string and device pixel both
supplied, the lookup returns the device section, not the browser section. -/
theorem c6_counterexample :
    get_config_data
      (.dict [("browsers", .dict [("", .dict [("b", .num 1)])]),
              ("devices", .dict [("pixel", .dict [("d", .num 2)])])])
      (some "") (some "pixel")
      = .ok (some (.dict [("d", .num 2)]))
    ∧ get_config_data
      (.dict [("browsers", .dict [("", .dict [("b", .num 1)])]),
              ("devices", .dict [("pixel", .dict [("d", .num 2)])])])
      (some "") (some "pixel")
      ≠ .ok (some (.dict [("b", .num 1)])) :=
  ⟨rfl, fun h => absurd (congrArg resultKeys h) (by decide)⟩

/-- Claim C6 (amended): when both a non-empty browser name and a device name are
supplied, the lookup returns the browser section; when neither is supplied, it
returns Python None. -/
theorem c6_browser_wins (m bm : List (String × JVal)) (b d : String)
    (hb : (b == "") = false) (hm : dictGet m "browsers" = some (.dict bm)) :
    get_config_data (.dict m) (some b) (some d) = .ok (some (dictGetD bm b (.dict [])))
    ∧ get_config_data (.dict m) none none = .ok none :=
  ⟨getConfigData_browser m bm b (some d) hb hm, getConfigData_neither _⟩

/-- Claim C6 witness: a concrete document with both sections populated. -/
theorem c6_browser_wins_witness :
    (("chrome" == "") = false)
    ∧ dictGet [("browsers", .dict [("chrome", .dict [("x", .num 1)])]),
               ("devices", .dict [("pixel", .dict [("d", .num 2)])])] "browsers"
        = some (.dict [("chrome", .dict [("x", .num 1)])])
    ∧ (get_config_data (.dict [("browsers", .dict [("chrome", .dict [("x", .num 1)])]),
               ("devices", .dict [("pixel", .dict [("d", .num 2)])])]) (some "chrome") (some "pixel")
        = .ok (some (dictGetD [("chrome", .dict [("x", .num 1)])] "chrome" (.dict [])))
      ∧ get_config_data (.dict [("browsers", .dict [("chrome", .dict [("x", .num 1)])]),
               ("devices", .dict [("pixel", .dict [("d", .num 2)])])]) none none = .ok none) :=
  ⟨rfl, rfl, c6_browser_wins _ _ "chrome" "pixel" rfl rfl⟩

/-!
Claim C10. The lookup raises an attribute error on documents that lack the
accessed section key, for every non-empty selector name; the empty name again
escapes, because it is falsy and never reaches the attribute access.
-/

/-- Claim C10 counterexample: on a document lacking the browsers key, the lookup
with the empty browser name returns Python None instead of raising. -/
theorem c10_counterexample :
    get_config_data (.dict []) (some "") none = .ok none
    ∧ get_config_data (.dict []) (some "") none
      ≠ .error (.attributeError "NoneType" "get") :=
  ⟨rfl, fun h => Except.noConfusion h⟩

/-- Claim C10 (amended): on a loaded document lacking the browsers key, the
lookup with any non-empty browser name raises the attribute error of a get
call on None, and symmetrically for the devices key with a non-empty device
name. -/
theorem c10_missing_section_raises (m1 m2 : List (String × JVal)) (b d : String)
    (hb : (b == "") = false) (hd : (d == "") = false)
    (h1 : dictGet m1 "browsers" = none) (h2 : dictGet m2 "devices" = none) :
    get_config_data (.dict m1) (some b) none = .error (.attributeError "NoneType" "get")
    ∧ get_config_data (.dict m2) none (some d) = .error (.attributeError "NoneType" "get") := by
  constructor
  · simp [get_config_data, optTruthy, hb, pyGet, pyGetD, dictGetD, h1, jvalTypeName]
  · simp [get_config_data, optTruthy, hd, pyGet, pyGetD, dictGetD, h2, jvalTypeName]

/-- Claim C10 witness: the empty document with concrete selector names. -/
theorem c10_missing_section_raises_witness :
    (("chrome" == "") = false) ∧ (("pixel" == "") = false)
    ∧ dictGet ([] : List (String × JVal)) "browsers" = none
    ∧ dictGet ([] : List (String × JVal)) "devices" = none
    ∧ (get_config_data (.dict []) (some "chrome") none
        = .error (.attributeError "NoneType" "get")
      ∧ get_config_data (.dict []) none (some "pixel")
        = .error (.attributeError "NoneType" "get")) :=
  ⟨rfl, rfl, rfl, rfl, c10_missing_section_raises [] [] "chrome" "pixel" rfl rfl rfl rfl⟩

/-!
Claim C8. Termination wraps every failure of the underlying quit call into
PyTestFlowException, and a factory holding no session raises the same wrapped
error, because calling quit on None raises an attribute error inside the try
block; the operation is not a no-op there.
-/

/-- Claim C8: quit_webdriver raises the wrapped session-termination error
whenever the underlying quit raises, raises it in particular when no driver is
held, and succeeds only when a held driver quits cleanly. -/
theorem c8_quit_raises (d : Driver) (m : String) (q : Option String) :
    quit_webdriver none q
      = .error (.pyTestFlow ("Error in closing WebDriver. Original Error: "
          ++ attributeMsg "NoneType" "quit"))
    ∧ quit_webdriver (some d) (some m)
      = .error (.pyTestFlow ("Error in closing WebDriver. Original Error: " ++ m))
    ∧ quit_webdriver (some d) none = .ok () :=
  ⟨rfl, rfl, rfl⟩

/-! Helper lemmas about the factory pipeline. -/

/-- A truthy browser membership check means the browser is one of the four
supported names; the two boolean disjunctions mirror the dispatch orders used
by __init_service and __create_local_driver. -/
theorem browserMem_some (browser : Option String) (hb : browserMem browser = true) :
    ∃ b, browser = some b
      ∧ (b == "chrome" || b == "firefox" || b == "edge" || b == "safari") = true
      ∧ (b == "chrome" || b == "edge" || b == "firefox" || b == "safari") = true := by
  cases browser with
  | none => simp [browserMem] at hb
  | some b =>
    simp only [browserMem, SUPPORTED_BROWSERS] at hb
    simp at hb
    refine ⟨b, rfl, ?_, ?_⟩ <;> (rcases hb with h | h | h | h <;> simp [h])

/-- For a supported browser name the service step consults the install oracle:
a failure is wrapped, a success yields the service handle. -/
theorem init_service_supported (env : Env) (b : String)
    (h : (b == "chrome" || b == "firefox" || b == "edge" || b == "safari") = true) :
    init_service env (some b) = (match env.serviceError b with
      | some m => .error (.pyTestFlow ("An Error encountered while initializing service for "
          ++ b ++ " browser." ++ "Original Exception is: " ++ m))
      | none => .ok (some ⟨b⟩)) := by
  simp [init_service, h]

/-- The trace of remote driver creation is an initial segment of options,
service, remote session. -/
theorem create_remote_front (env : Env) (browser grid_url : Option String) (cfg : JVal)
    (hb : browserMem browser = true) :
    ∃ rest, (create_remote_driver env browser grid_url cfg).1 ++ rest
      = [Event.optionsResolved, Event.serviceInited, Event.remoteSessionCreated] := by
  obtain ⟨b, rfl, h4, _⟩ := browserMem_some browser hb
  unfold create_remote_driver
  rcases hgo : get_options (some b) cfg with e | opts
  · exact ⟨[Event.optionsResolved, Event.serviceInited, Event.remoteSessionCreated], by simp⟩
  · rw [init_service_supported env b h4]
    rcases hse : env.serviceError b with _ | m
    · rcases hre : env.remoteError with _ | p
      · exact ⟨[], by simp⟩
      · exact ⟨[Event.remoteSessionCreated], by simp⟩
    · exact ⟨[Event.serviceInited, Event.remoteSessionCreated], by simp⟩

/-- The trace of local driver creation is an initial segment of options,
service, local session. -/
theorem create_local_front (env : Env) (browser : Option String) (cfg : JVal)
    (hb : browserMem browser = true) :
    ∃ rest, (create_local_driver env browser cfg).1 ++ rest
      = [Event.optionsResolved, Event.serviceInited, Event.localSessionCreated] := by
  obtain ⟨b, rfl, h4, h4b⟩ := browserMem_some browser hb
  have hcond : ((b = "chrome" ∨ b = "edge") ∨ b = "firefox") ∨ b = "safari" := by
    simpa using h4b
  unfold create_local_driver
  rcases hgo : get_options (some b) cfg with e | opts
  · exact ⟨[Event.optionsResolved, Event.serviceInited, Event.localSessionCreated], by simp⟩
  · rw [init_service_supported env b h4]
    rcases hse : env.serviceError b with _ | m
    · rcases hle : env.localError with _ | m2
      · exact ⟨[], by simp [hcond]⟩
      · exact ⟨[Event.localSessionCreated], by simp [hcond]⟩
    · exact ⟨[Event.serviceInited, Event.localSessionCreated], by simp⟩

/-- The trace of the session step is an initial segment of options, service and
the session event selected by the remote flag and grid url. -/
theorem set_webdriver_front (env : Env) (browser : Option String) (remote : Bool)
    (grid_url : Option String) (cfg : JVal) (hb : browserMem browser = true) :
    ∃ rest, (set_webdriver env browser remote grid_url cfg).1 ++ rest
      = [Event.optionsResolved, Event.serviceInited]
        ++ (if remote && optTruthy grid_url then [Event.remoteSessionCreated]
            else [Event.localSessionCreated]) := by
  unfold set_webdriver
  cases hrg : (remote && optTruthy grid_url) with
  | false =>
    obtain ⟨rest, hr⟩ := create_local_front env browser cfg hb
    exact ⟨rest, by simp [hr]⟩
  | true =>
    obtain ⟨rest, hr⟩ := create_remote_front env browser grid_url cfg hb
    exact ⟨rest, by simp [hr]⟩

/-- The full event sequence of a construction that runs to completion: the
configuration resolution when a path was given, the platform check, the
browser check, options, service, and the selected session creation. -/
def fullTrace (remote : Bool) (grid_url test_config_path : Option String) : List Event :=
  (if optTruthy test_config_path then [Event.configResolved] else [])
    ++ [Event.platformChecked, Event.browserChecked, Event.optionsResolved, Event.serviceInited]
    ++ (if remote && optTruthy grid_url then [Event.remoteSessionCreated]
        else [Event.localSessionCreated])

/-!
Claim C2. The spec claims the constructor validates platform compatibility
first, then browser membership, and only then resolves the configuration. In
the source, __init__ resolves the configuration before either check, so a
configuration failure is raised even when the platform check would also fail.
The amended order is: configuration resolution, platform check, browser check,
then options, service and session, each earlier step completing or failing
before any effect of a later one.
-/

/-- Claim C2 counterexample: with a missing configuration file, constructing
safari on Windows raises the configuration error, not the platform error that
the claimed validation order would produce first. -/
theorem c2_counterexample :
    (factory_init envNF (some "safari") false none (some "conf.json")).2
      = .error (.pyTestFlow ("Test config data file path not found. Please verify the correct path location."
          ++ "Path provided is: conf.json"))
    ∧ check_platform_compatibility envNF.platformSystem (some "safari")
      = .error (.pyTestFlow "safari is not supported on Windows.")
    ∧ PyError.pyTestFlow ("Test config data file path not found. Please verify the correct path location."
          ++ "Path provided is: conf.json")
      ≠ PyError.pyTestFlow "safari is not supported on Windows." :=
  ⟨rfl, rfl, by decide⟩

/-- Claim C2 (amended): for every construction, the emitted effects form an
initial segment of the canonical order configuration resolution, platform
check, browser check, options, service, session; so everything an earlier step
does is over before any later step starts. -/
theorem c2_effect_order (env : Env) (browser : Option String) (remote : Bool)
    (grid_url test_config_path : Option String) :
    ∃ rest, (factory_init env browser remote grid_url test_config_path).1 ++ rest
      = fullTrace remote grid_url test_config_path := by
  unfold factory_init fullTrace
  rcases hc : configStep env browser test_config_path with e | cfg
  · exact ⟨(if optTruthy test_config_path then [Event.configResolved] else [])
      ++ [Event.platformChecked, Event.browserChecked, Event.optionsResolved, Event.serviceInited]
      ++ (if remote && optTruthy grid_url then [Event.remoteSessionCreated]
          else [Event.localSessionCreated]), by simp⟩
  · rcases hp : check_platform_compatibility env.platformSystem browser with e | u
    · exact ⟨[Event.platformChecked, Event.browserChecked, Event.optionsResolved,
        Event.serviceInited]
        ++ (if remote && optTruthy grid_url then [Event.remoteSessionCreated]
            else [Event.localSessionCreated]), by simp⟩
    · rcases hbav : check_browser_availability browser with e | u2
      · exact ⟨[Event.browserChecked, Event.optionsResolved, Event.serviceInited]
          ++ (if remote && optTruthy grid_url then [Event.remoteSessionCreated]
              else [Event.localSessionCreated]), by simp⟩
      · have hb : browserMem browser = true := by
          cases hmem : browserMem browser with
          | true => rfl
          | false => simp [check_browser_availability, hmem] at hbav
        obtain ⟨rest, hw⟩ := set_webdriver_front env browser remote grid_url cfg hb
        rcases hsw : set_webdriver env browser remote grid_url cfg with ⟨tw, r⟩
        rw [hsw] at hw
        rcases r with e | ⟨drv, svc⟩ <;>
          (simp only [hsw]
           refine ⟨rest, ?_⟩
           simp only [List.append_assoc, List.cons_append, List.nil_append] at hw ⊢
           rw [hw])

/-!
Claim C3. The claim quantifies over every configuration content, but because
configuration resolution runs before the platform check, a content on which
resolution raises, such as an empty JSON object that makes the browsers
attribute access fail, surfaces that error instead of the platform error. The
platform failure is guaranteed only when configuration resolution succeeds,
and then indeed nothing of the service or session steps has happened.
-/

/-- Claim C3 counterexample: on Windows with safari and an empty JSON object as
configuration content, construction raises the attribute error from the
configuration lookup, not the unsupported-platform error. -/
theorem c3_counterexample :
    (factory_init envMT (some "safari") false none (some "conf.json")).2
      = .error (.attributeError "NoneType" "get")
    ∧ PyError.attributeError "NoneType" "get"
      ≠ PyError.pyTestFlow "safari is not supported on Windows." :=
  ⟨rfl, by decide⟩

/-- Claim C3 (amended): whenever configuration resolution succeeds, including
whenever no configuration path is given, constructing safari on a Windows host
fails with the unsupported-platform error, and the trace confirms that no
service initialization or session creation has taken place. -/
theorem c3_platform_error (env : Env) (remote : Bool) (grid_url test_config_path : Option String)
    (cfg : JVal) (hw : env.platformSystem = "Windows")
    (hc : configStep env (some "safari") test_config_path = .ok cfg) :
    (factory_init env (some "safari") remote grid_url test_config_path).2
      = .error (.pyTestFlow "safari is not supported on Windows.")
    ∧ (factory_init env (some "safari") remote grid_url test_config_path).1
      = (if optTruthy test_config_path then [Event.configResolved] else []) := by
  have hpc : check_platform_compatibility env.platformSystem (some "safari")
      = .error (.pyTestFlow "safari is not supported on Windows.") := by
    simp [check_platform_compatibility, hw, pyStrOpt]
  unfold factory_init
  simp only [hc, hpc]
  refine ⟨?_, ?_⟩ <;> trivial

/-- Claim C3 witness: safari on a concrete Windows environment with no
configuration path. -/
theorem c3_platform_error_witness :
    envMT.platformSystem = "Windows"
    ∧ configStep envMT (some "safari") none = .ok (.dict [])
    ∧ ((factory_init envMT (some "safari") false none none).2
        = .error (.pyTestFlow "safari is not supported on Windows.")
      ∧ (factory_init envMT (some "safari") false none none).1
        = (if optTruthy none then [Event.configResolved] else [])) :=
  ⟨rfl, rfl, c3_platform_error envMT false none none (.dict []) rfl rfl⟩

/-!
Claim C4. Same ordering caveat as C3: a browser name outside the supported set
is reported with the unsupported-browser error enumerating the set, but only
when configuration resolution does not fail first; a missing configuration
file surfaces the configuration error instead.
-/

/-- Claim C4 counterexample: an unsupported browser name with a missing
configuration file raises the configuration error, not the unsupported-browser
error. -/
theorem c4_counterexample :
    (factory_init envNF (some "opera") false none (some "conf.json")).2
      = .error (.pyTestFlow ("Test config data file path not found. Please verify the correct path location."
          ++ "Path provided is: conf.json"))
    ∧ PyError.pyTestFlow ("Test config data file path not found. Please verify the correct path location."
          ++ "Path provided is: conf.json")
      ≠ PyError.pyTestFlow ("Unsupported Browser: " ++ "opera" ++ ". "
          ++ "Supported browsers are " ++ String.intercalate "," SUPPORTED_BROWSERS) :=
  ⟨rfl, by decide⟩

/-- Claim C4 (amended): for every browser name outside the supported set, when
configuration resolution succeeds, construction fails with the
unsupported-browser error whose message enumerates the supported set, and the
trace stops right after the platform check, so no session handle is produced. -/
theorem c4_unsupported_browser (env : Env) (b : String) (remote : Bool)
    (grid_url test_config_path : Option String) (cfg : JVal)
    (hb : SUPPORTED_BROWSERS.contains b = false)
    (hc : configStep env (some b) test_config_path = .ok cfg) :
    (factory_init env (some b) remote grid_url test_config_path).2
      = .error (.pyTestFlow ("Unsupported Browser: " ++ b ++ ". "
          ++ "Supported browsers are " ++ String.intercalate "," SUPPORTED_BROWSERS))
    ∧ (factory_init env (some b) remote grid_url test_config_path).1
      = (if optTruthy test_config_path then [Event.configResolved] else [])
          ++ [Event.platformChecked] := by
  have hsafari : (b == "safari") = false := by
    cases hq : (b == "safari") with
    | false => rfl
    | true =>
      rw [show b = "safari" from by simpa using hq] at hb
      simp [SUPPORTED_BROWSERS] at hb
  have hpc : check_platform_compatibility env.platformSystem (some b) = .ok () := by
    simp [check_platform_compatibility, hsafari]
  have hmem : b ∉ SUPPORTED_BROWSERS := by simpa using hb
  have hbav : check_browser_availability (some b)
      = .error (.pyTestFlow ("Unsupported Browser: " ++ b ++ ". "
          ++ "Supported browsers are " ++ String.intercalate "," SUPPORTED_BROWSERS)) := by
    simp [check_browser_availability, browserMem, hmem, pyStrOpt]
  unfold factory_init
  simp only [hc, hpc, hbav]
  refine ⟨?_, ?_⟩ <;> trivial

/-- Claim C4 witness: the browser name opera on a concrete environment with no
configuration path. -/
theorem c4_unsupported_browser_witness :
    SUPPORTED_BROWSERS.contains "opera" = false
    ∧ configStep envLinux (some "opera") none = .ok (.dict [])
    ∧ ((factory_init envLinux (some "opera") false none none).2
        = .error (.pyTestFlow ("Unsupported Browser: " ++ "opera" ++ ". "
            ++ "Supported browsers are " ++ String.intercalate "," SUPPORTED_BROWSERS))
      ∧ (factory_init envLinux (some "opera") false none none).1
        = (if optTruthy none then [Event.configResolved] else [])
            ++ [Event.platformChecked]) :=
  ⟨rfl, rfl, c4_unsupported_browser envLinux "opera" false none none (.dict []) rfl rfl⟩

/-!
Claim C9. The hard assertion raises exactly on a false condition and the soft
assertion records the message exactly on a false condition, continuing either
way.
-/

/-- Claim C9: hard_assert succeeds exactly when the condition is true and raises
AssertionError with the message exactly when it is false; soft_assert leaves
the recorded failures unchanged exactly when the condition is true and appends
the message exactly when it is false, never raising. -/
theorem c9_assertions (condition : Bool) (msg : String) (failures : List String) :
    (hard_assert condition msg = .ok () ↔ condition = true)
    ∧ (hard_assert condition msg = .error (.assertionError msg) ↔ condition = false)
    ∧ (soft_assert failures condition msg = failures ↔ condition = true)
    ∧ (soft_assert failures condition msg = failures ++ [msg] ↔ condition = false) := by
  cases condition <;> simp [hard_assert, soft_assert, check_is_true]

/-! Helper lemmas for the session-creation claim. -/

/-- Number of session-creation events, remote or local, in a trace. -/
def sessionEventCount (tr : List Event) : Nat :=
  tr.countP (fun e => e == Event.remoteSessionCreated || e == Event.localSessionCreated)

/-- Characterizes a successful remote creation: the options resolved from the
configuration are the ones inside the returned driver, and the trace holds
exactly one session event. -/
theorem create_remote_ok (env : Env) (browser grid_url : Option String) (cfg : JVal)
    (tr : List Event) (drv : Option Driver) (svc : Option Service)
    (hb : browserMem browser = true)
    (h : create_remote_driver env browser grid_url cfg = (tr, .ok (drv, svc))) :
    ∃ opts, get_options browser cfg = .ok opts ∧ drv = some (.remote grid_url opts)
      ∧ tr = [Event.optionsResolved, Event.serviceInited, Event.remoteSessionCreated] := by
  obtain ⟨b, rfl, h4, _⟩ := browserMem_some browser hb
  rcases hgo : get_options (some b) cfg with e | opts
  · simp [create_remote_driver, hgo] at h
  · rcases hse : env.serviceError b with _ | m
    · rcases hre : env.remoteError with _ | p
      · simp [create_remote_driver, hgo, init_service_supported env b h4, hse, hre] at h
        obtain ⟨h1, h2, h3⟩ := h
        subst_vars
        exact ⟨opts, rfl, rfl, rfl⟩
      · simp [create_remote_driver, hgo, init_service_supported env b h4, hse, hre] at h
    · simp [create_remote_driver, hgo, init_service_supported env b h4, hse] at h

/-- Characterizes a successful local creation: the driver holds the resolved
options and the service, and the trace holds exactly one session event. -/
theorem create_local_ok (env : Env) (browser : Option String) (cfg : JVal)
    (tr : List Event) (drv : Option Driver) (svc : Option Service)
    (hb : browserMem browser = true)
    (h : create_local_driver env browser cfg = (tr, .ok (drv, svc))) :
    ∃ opts, get_options browser cfg = .ok opts ∧ drv = some (.localDriver browser opts svc)
      ∧ tr = [Event.optionsResolved, Event.serviceInited, Event.localSessionCreated] := by
  obtain ⟨b, rfl, h4, h4b⟩ := browserMem_some browser hb
  have hcond : ((b = "chrome" ∨ b = "edge") ∨ b = "firefox") ∨ b = "safari" := by
    simpa using h4b
  rcases hgo : get_options (some b) cfg with e | opts
  · simp [create_local_driver, hgo] at h
  · rcases hse : env.serviceError b with _ | m
    · rcases hle : env.localError with _ | m2
      · simp [create_local_driver, hgo, init_service_supported env b h4, hse, hle, hcond] at h
        obtain ⟨h1, h2, h3⟩ := h
        subst_vars
        exact ⟨opts, rfl, rfl, rfl⟩
      · simp [create_local_driver, hgo, init_service_supported env b h4, hse, hle, hcond] at h
    · simp [create_local_driver, hgo, init_service_supported env b h4, hse] at h

/-!
Claim C7. Confirmed: a successful construction emits exactly one
session-creation event, and the held driver is the remote session exactly when
the remote flag and a truthy grid url are both present, sharing the resolved
options, else the local session with the resolved options and service.
-/

/-- Claim C7: every successful construction creates exactly one session, remote
precisely when both the remote flag and a non-empty grid url were supplied,
local with the resolved options and service in every other case. -/
theorem c7_exactly_one_session (env : Env) (browser : Option String) (remote : Bool)
    (grid_url test_config_path : Option String) (fac : Factory) (opts : Option ArgOptions)
    (h : (factory_init env browser remote grid_url test_config_path).2 = .ok fac)
    (ho : get_options browser fac.config_data = .ok opts) :
    sessionEventCount (factory_init env browser remote grid_url test_config_path).1 = 1
    ∧ fac.driver = some (if remote && optTruthy grid_url then Driver.remote grid_url opts
        else Driver.localDriver browser opts fac.service) := by
  rcases hc : configStep env browser test_config_path with e | cfg
  · simp [factory_init, hc] at h
  · rcases hp : check_platform_compatibility env.platformSystem browser with e | u
    · simp [factory_init, hc, hp] at h
    · rcases hbav : check_browser_availability browser with e | u2
      · simp [factory_init, hc, hp, hbav] at h
      · have hb : browserMem browser = true := by
          cases hmem : browserMem browser with
          | true => rfl
          | false => simp [check_browser_availability, hmem] at hbav
        rcases hsw : set_webdriver env browser remote grid_url cfg with ⟨tw, r⟩
        rcases r with e | ⟨drv, svc⟩
        · simp [factory_init, hc, hp, hbav, hsw] at h
        · simp only [factory_init, hc, hp, hbav, hsw, Except.ok.injEq] at h
          subst h
          simp only [factory_init, hc, hp, hbav, hsw]
          rw [show (Factory.mk browser remote grid_url drv svc cfg).config_data
              = cfg from rfl] at ho
          cases hrg : (remote && optTruthy grid_url) with
          | true =>
            rw [show set_webdriver env browser remote grid_url cfg
                = create_remote_driver env browser grid_url cfg from by
              simp [set_webdriver, hrg]] at hsw
            obtain ⟨opts0, hgo, hdrv, htw⟩ := create_remote_ok env browser grid_url cfg
              tw drv svc hb hsw
            rw [hgo] at ho
            have hopts : opts = opts0 := (Except.ok.inj ho).symm
            subst hopts htw hdrv
            constructor
            · cases hto : optTruthy test_config_path <;> simp [hto] <;> decide
            · simp [hrg]
          | false =>
            rw [show set_webdriver env browser remote grid_url cfg
                = create_local_driver env browser cfg from by
              simp [set_webdriver, hrg]] at hsw
            obtain ⟨opts0, hgo, hdrv, htw⟩ := create_local_ok env browser cfg
              tw drv svc hb hsw
            rw [hgo] at ho
            have hopts : opts = opts0 := (Except.ok.inj ho).symm
            subst hopts htw hdrv
            constructor
            · cases hto : optTruthy test_config_path <;> simp [hto] <;> decide
            · simp [hrg]

/-- The factory produced by a successful local chrome construction with no
configuration path, used by the claim C7 witness. -/
def facChrome : Factory :=
  { browser := some "chrome"
    remote := false
    grid_url := none
    driver := some (.localDriver (some "chrome") (some ⟨[], []⟩) (some ⟨"chrome"⟩))
    service := some ⟨"chrome"⟩
    config_data := .dict [] }

/-- Claim C7 witness: a concrete successful local chrome construction. -/
theorem c7_exactly_one_session_witness :
    (factory_init envLinux (some "chrome") false none none).2 = .ok facChrome
    ∧ get_options (some "chrome") facChrome.config_data = .ok (some ⟨[], []⟩)
    ∧ (sessionEventCount (factory_init envLinux (some "chrome") false none none).1 = 1
      ∧ facChrome.driver = some (if false && optTruthy none
          then Driver.remote none (some ⟨[], []⟩)
          else Driver.localDriver (some "chrome") (some ⟨[], []⟩) facChrome.service)) :=
  ⟨rfl, rfl, c7_exactly_one_session envLinux (some "chrome") false none none
    facChrome (some ⟨[], []⟩) rfl rfl⟩

end SeleniumPy
